import Mathlib

/-!
Shallow embedding of the financial computation engine
(`src/unnamed/part_002`, a TypeScript module) for verification.

Conventions used throughout:
* JavaScript floating-point numbers are modelled as real numbers (`ℝ`);
  the exact decimal tax-rate tables are kept in `ℚ` (they are exact in the
  source as well) and cast into `ℝ` where they enter monetary arithmetic.
* `Math.pow` is modelled by `Real.rpow`, which agrees with it on every
  integer exponent, including negative bases.
* A JavaScript `Date` is a naive local-midnight calendar date: a record of
  year, 0-based month (as returned by `getMonth()`) and day-of-month.  Its
  timestamp is `86400000 *` its epoch-day number, computed by
  `daysFromCivil` (the standard Gregorian civil-from-days inverse), so date
  comparison and day differences are epoch-day comparison and subtraction.
* Day counts and month counts are integers (`ℤ`), exactly as the source
  produces them.
-/

/-- `BUSINESS_DAYS_PER_YEAR` constant of the engine (trading days). -/
def BUSINESS_DAYS_PER_YEAR : ℕ := 252

/-- `CALENDAR_DAYS_PER_YEAR` constant of the engine. -/
def CALENDAR_DAYS_PER_YEAR : ℕ := 365

/-- A naive calendar date at local midnight.  `month` is 0-based, exactly as
JavaScript's `Date.getMonth()` reports it (0 = January). -/
structure Date where
  year : ℤ
  month : ℤ
  day : ℤ
deriving DecidableEq

/-- Epoch-day number of a civil date (days since 1970-01-01), via the
standard Gregorian civil-calendar algorithm.  A midnight `Date`'s
JavaScript timestamp is exactly `86400000 *` this number, so timestamp
differences and comparisons in the source are differences and comparisons
of `daysFromCivil`. -/
def daysFromCivil (d : Date) : ℤ :=
  let mm := d.month + 1
  let y := d.year - (if mm ≤ 2 then 1 else 0)
  let era := Int.fdiv y 400
  let yoe := y - era * 400
  let mp := Int.emod (mm + 9) 12
  let doy := (153 * mp + 2) / 5 + d.day - 1
  let doe := yoe * 365 + yoe / 4 - yoe / 100 + doy
  era * 146097 + doe - 719468

/-- JavaScript `<` on two midnight `Date`s compares their timestamps, i.e.
their epoch-day numbers. -/
def dateLt (a b : Date) : Bool :=
  daysFromCivil a < daysFromCivil b

/-- `targetDate.setMonth(targetDate.getMonth() + i)`: calendar-month
addition with year carry.  (JavaScript additionally rolls a day-of-month
that exceeds the target month's length over into the following month; no
theorem below inspects the produced date's components, so that rollover is
not reproduced here.) -/
def addMonths (d : Date) (i : ℤ) : Date :=
  { year := d.year + Int.fdiv (d.month + i) 12
    month := Int.emod (d.month + i) 12
    day := d.day }

/-- The `Investment` record of the source (`type` is its closed tag set). -/
inductive InvestmentType
  | CDB | LCI | LCA | Tesouro | Caixinha | Poupanca
deriving DecidableEq

structure Investment where
  id : String
  name : String
  type : InvestmentType
  principal : ℝ
  cdiPercentage : ℝ
  depositDate : Date
  maturityDate : Option Date
  isExemptFromIR : Bool

/-- The `Expense` record of the source. -/
structure Expense where
  id : String
  description : String
  totalAmount : ℝ
  installments : ℤ
  currentInstallment : ℤ
  monthlyAmount : ℝ
  startDate : Date
  category : String
  isPaid : Bool
  paymentDate : Option Date

/-- The `InvestmentCalculation` record returned by
`InvestmentCalculator.calculate`. -/
structure InvestmentCalculation where
  grossValue : ℝ
  grossReturn : ℝ
  iofAmount : ℝ
  irAmount : ℝ
  netValue : ℝ
  netReturn : ℝ
  effectiveRate : ℝ
  daysInvested : ℤ
  businessDays : ℤ
  irRate : ℝ
  iofRate : ℝ

/-- The `ProjectionResult` record returned by
`FinancialEngine.projectWealth`.  The `month` field is a locale-formatted
label (`toLocaleDateString`), presentation-only; it is abstracted as the
empty string since no computation or claim reads it. -/
structure ProjectionResult where
  month : String
  date : Date
  totalInvestments : ℝ
  totalExpenses : ℝ
  netWorth : ℝ
  monthlyReturn : ℝ

instance : Inhabited ProjectionResult :=
  ⟨{ month := "", date := ⟨0, 0, 0⟩, totalInvestments := 0, totalExpenses := 0,
     netWorth := 0, monthlyReturn := 0 }⟩

/-- `CDIService.annualToDaily`: daily = ((1 + annual/100)^(1/252) − 1) × 100. -/
noncomputable def annualToDaily (annualRatePercent : ℝ) : ℝ :=
  let annualRate := annualRatePercent / 100
  let dailyRate := (1 + annualRate) ^ ((1 : ℝ) / (BUSINESS_DAYS_PER_YEAR : ℝ)) - 1
  dailyRate * 100

/-- `CDIService.dailyToAnnual`: annual = ((1 + daily/100)^252 − 1) × 100. -/
noncomputable def dailyToAnnual (dailyRatePercent : ℝ) : ℝ :=
  let dailyRate := dailyRatePercent / 100
  let annualRate := (1 + dailyRate) ^ ((BUSINESS_DAYS_PER_YEAR : ℕ) : ℝ) - 1
  annualRate * 100

/-- `CDIService.annualToMonthly`: monthly = ((1 + annual/100)^(1/12) − 1) × 100. -/
noncomputable def annualToMonthly (annualRatePercent : ℝ) : ℝ :=
  let annualRate := annualRatePercent / 100
  let monthlyRate := (1 + annualRate) ^ ((1 : ℝ) / 12) - 1
  monthlyRate * 100

/-- `BusinessDaysCalculator.getCalendarDays`: both dates are normalised to
midnight and the millisecond difference is divided by 86 400 000, clamped
to be non-negative; on midnight dates that is exactly the epoch-day
difference. -/
def getCalendarDays (startDate endDate : Date) : ℤ :=
  max 0 (daysFromCivil endDate - daysFromCivil startDate)

/-- `BusinessDaysCalculator.estimateBusinessDays`:
`Math.round(calendarDays * (252 / 365))`.  `Math.round` rounds half toward
positive infinity, which is exactly Mathlib's `round`. -/
def estimateBusinessDays (calendarDays : ℤ) : ℤ :=
  round ((calendarDays : ℚ) * ((BUSINESS_DAYS_PER_YEAR : ℚ) / (CALENDAR_DAYS_PER_YEAR : ℚ)))

/-- `TaxCalculator.IR_TABLE`: regressive income-tax brackets on calendar
days.  `none` stands for the source's `Infinity` upper bound. -/
def IR_TABLE : List (Option ℤ × ℚ) :=
  [(some 180, 22.5), (some 360, 20.0), (some 720, 17.5), (none, 15.0)]

/-- Whether a day count falls inside a bracket of `IR_TABLE`
(`calendarDays <= bracket.maxDays`, with `Infinity` matching always). -/
def bracketMatches (calendarDays : ℤ) (bracket : Option ℤ × ℚ) : Bool :=
  match bracket.1 with
  | none => true
  | some maxDays => calendarDays ≤ maxDays

/-- `TaxCalculator.getIRRate`: first bracket of `IR_TABLE` whose upper
bound accommodates the day count; the trailing `return 15.0` is the
unreachable fallback after the `Infinity` bracket. -/
def getIRRate (calendarDays : ℤ) : ℚ :=
  match IR_TABLE.find? (bracketMatches calendarDays) with
  | some bracket => bracket.2
  | none => 15.0

/-- `TaxCalculator.IOF_TABLE`: IOF percentage for days 1..30 (index day−1). -/
def IOF_TABLE : List ℚ :=
  [96, 93, 90, 86, 83, 80, 76, 73, 70, 66,
   63, 60, 56, 53, 50, 46, 43, 40, 36, 33,
   30, 26, 23, 20, 16, 13, 10, 6, 3, 0]

/-- `TaxCalculator.getIOFRate`: 96 for day counts ≤ 0, 0 after 30 days,
otherwise the table entry at index day−1. -/
def getIOFRate (calendarDays : ℤ) : ℚ :=
  if calendarDays ≤ 0 then 96
  else if calendarDays > 30 then 0
  else IOF_TABLE.getD (calendarDays - 1).toNat 0

/-- `TaxCalculator.calculateIOF`: zero on a non-positive gross return,
else gross return times the IOF rate over 100. -/
noncomputable def calculateIOF (grossReturn : ℝ) (calendarDays : ℤ) : ℝ :=
  if grossReturn ≤ 0 then 0
  else grossReturn * (((getIOFRate calendarDays : ℚ) : ℝ) / 100)

/-- `TaxCalculator.calculateIR`: base is gross return minus the IOF amount;
zero on a non-positive base, else base times the IR rate over 100. -/
noncomputable def calculateIR (grossReturn iofAmount : ℝ) (calendarDays : ℤ) : ℝ :=
  let baseIR := grossReturn - iofAmount
  if baseIR ≤ 0 then 0
  else baseIR * (((getIRRate calendarDays : ℚ) : ℝ) / 100)

/-- `InvestmentCalculator.calculate`.  The source initialises the four tax
figures to 0 and overwrites them inside a single `if (!isExemptFromIR)`
block; that assignment pattern is rendered as one conditional per figure
(`irAmount` consumes the same `iofAmount` binding the block computes). -/
noncomputable def calculate (investment : Investment) (currentDate : Date)
    (cdiAnnualRate : ℝ) : InvestmentCalculation :=
  let calendarDays := getCalendarDays investment.depositDate currentDate
  let businessDays := estimateBusinessDays calendarDays
  let cdiDailyRate := annualToDaily cdiAnnualRate / 100
  let effectiveDailyRate := cdiDailyRate * (investment.cdiPercentage / 100)
  let grossMultiplier := (1 + effectiveDailyRate) ^ ((businessDays : ℤ) : ℝ)
  let grossValue := investment.principal * grossMultiplier
  let grossReturn := grossValue - investment.principal
  let iofRate : ℝ := if investment.isExemptFromIR then 0
    else ((getIOFRate calendarDays : ℚ) : ℝ)
  let iofAmount : ℝ := if investment.isExemptFromIR then 0
    else calculateIOF grossReturn calendarDays
  let irRate : ℝ := if investment.isExemptFromIR then 0
    else ((getIRRate calendarDays : ℚ) : ℝ)
  let irAmount : ℝ := if investment.isExemptFromIR then 0
    else calculateIR grossReturn iofAmount calendarDays
  let netValue := grossValue - iofAmount - irAmount
  let netReturn := netValue - investment.principal
  let effectiveRate := if 0 < calendarDays then
      ((netValue / investment.principal) ^
        (((CALENDAR_DAYS_PER_YEAR : ℕ) : ℝ) / (calendarDays : ℝ)) - 1) * 100
    else 0
  { grossValue := grossValue
    grossReturn := grossReturn
    iofAmount := iofAmount
    irAmount := irAmount
    netValue := netValue
    netReturn := netReturn
    effectiveRate := effectiveRate
    daysInvested := calendarDays
    businessDays := businessDays
    irRate := irRate
    iofRate := iofRate }

/-- `ExpenseManager.getMonthsDifference`:
`(endYear − startYear) × 12 + (endMonth − startMonth)`, day-of-month ignored. -/
def getMonthsDifference (startDate endDate : Date) : ℤ :=
  (endDate.year - startDate.year) * 12 + (endDate.month - startDate.month)

/-- `ExpenseManager.getMonthlyExpenses`: reduce over the expense list.  A
paid expense contributes nothing; an expense with a deferred payment date
strictly after the target date contributes nothing; otherwise it
contributes its monthly amount exactly when the whole-month difference
from its start date lies in `[0, installments)`. -/
noncomputable def getMonthlyExpenses (expenses : List Expense) (targetDate : Date) : ℝ :=
  expenses.foldl (fun total expense =>
    if expense.isPaid then total
    else if (match expense.paymentDate with
             | some paymentDate => dateLt targetDate paymentDate
             | none => false) then total
    else
      let monthsDiff := getMonthsDifference expense.startDate targetDate
      if 0 ≤ monthsDiff ∧ monthsDiff < expense.installments then
        total + expense.monthlyAmount
      else total) 0

/-- The positions-only total of `FinancialEngine.projectWealth` at month
index `i`: the loop's inner `reduce` summing each investment's `netValue`
at `targetDate = startDate + i months`. -/
noncomputable def positionsTotal (investments : List Investment) (cdiAnnualRate : ℝ)
    (startDate : Date) (i : ℕ) : ℝ :=
  investments.foldl
    (fun sum inv => sum + (calculate inv (addMonths startDate (i : ℤ)) cdiAnnualRate).netValue) 0

/-- One iteration of the `projectWealth` loop at month index `i`, carried
state = (results so far, accumulated expenses so far).  The source's
`results[i-1]` read is `acc.1.getD (i-1)`: the loop keeps
`results.length = i` when processing index `i`.  The inner savings loop
`j = 1..i` contributing `monthlySavings * (1+monthlyRate)^(i-j)` is the
sum over exponents `0..i-1`. -/
noncomputable def projectStep (investments : List Investment) (expenses : List Expense)
    (cdiAnnualRate monthlySavings : ℝ) (startDate : Date) (monthlyRate : ℝ)
    (acc : List ProjectionResult × ℝ) (i : ℕ) : List ProjectionResult × ℝ :=
  let targetDate := addMonths startDate (i : ℤ)
  let totalInvestments := positionsTotal investments cdiAnnualRate startDate i
  let accumulatedSavings :=
    Finset.sum (Finset.range i) (fun k => monthlySavings * (1 + monthlyRate) ^ k)
  let monthlyExpenses := getMonthlyExpenses expenses targetDate
  let totalAccumulatedExpenses := acc.2 + monthlyExpenses
  let totalBruto := totalInvestments + accumulatedSavings
  let accumulatedWealth := totalBruto - totalAccumulatedExpenses
  let previousTotal :=
    if 0 < i then (acc.1.getD (i - 1) default).totalInvestments
    else investments.foldl (fun sum inv => sum + inv.principal) 0
  let monthlyReturn :=
    if 0 < i then totalInvestments - previousTotal + monthlySavings * monthlyRate
    else 0
  (acc.1 ++ [{ month := ""
               date := targetDate
               totalInvestments := accumulatedWealth
               totalExpenses := monthlyExpenses
               netWorth := accumulatedWealth
               monthlyReturn := max 0 monthlyReturn }],
   totalAccumulatedExpenses)

/-- State of the `projectWealth` loop after processing month indices
`0, …, n−1`. -/
noncomputable def projectState (investments : List Investment) (expenses : List Expense)
    (cdiAnnualRate monthlySavings : ℝ) (startDate : Date) (monthlyRate : ℝ) :
    ℕ → List ProjectionResult × ℝ
  | 0 => ([], 0)
  | n + 1 =>
    projectStep investments expenses cdiAnnualRate monthlySavings startDate monthlyRate
      (projectState investments expenses cdiAnnualRate monthlySavings startDate monthlyRate n) n

/-- `FinancialEngine.projectWealth`: loop `i = 0..months`, one
`ProjectionResult` per index.  `startDate` stands for the source's
`new Date()` (the wall-clock date at the call). -/
noncomputable def projectWealth (investments : List Investment) (expenses : List Expense)
    (months : ℕ) (cdiAnnualRate : ℝ) (monthlySavings : ℝ) (startDate : Date) :
    List ProjectionResult :=
  let monthlyRate := annualToMonthly cdiAnnualRate / 100
  (projectState investments expenses cdiAnnualRate monthlySavings startDate monthlyRate
    (months + 1)).1

/-- A sample calendar date shared by the concrete instantiations below. -/
def sampleDate : Date := ⟨2025, 0, 1⟩

/-- A concrete non-exempt CDB position used to instantiate theorems. -/
def cdbSample : Investment :=
  { id := "inv1", name := "CDB sample", type := InvestmentType.CDB, principal := 10000,
    cdiPercentage := 100, depositDate := ⟨2023, 0, 1⟩, maturityDate := none,
    isExemptFromIR := false }

/-- A concrete tax-exempt LCI position used to instantiate theorems. -/
def lciSample : Investment :=
  { id := "inv2", name := "LCI sample", type := InvestmentType.LCI, principal := 5000,
    cdiPercentage := 110, depositDate := ⟨2023, 0, 1⟩, maturityDate := none,
    isExemptFromIR := true }

/-! ### Helper lemmas -/

theorem calculate_daysInvested (inv : Investment) (cur : Date) (rate : ℝ) :
    (calculate inv cur rate).daysInvested = getCalendarDays inv.depositDate cur := rfl

theorem calculate_businessDays (inv : Investment) (cur : Date) (rate : ℝ) :
    (calculate inv cur rate).businessDays =
      estimateBusinessDays (getCalendarDays inv.depositDate cur) := rfl

theorem calculate_grossValue (inv : Investment) (cur : Date) (rate : ℝ) :
    (calculate inv cur rate).grossValue =
      inv.principal * (1 + annualToDaily rate / 100 * (inv.cdiPercentage / 100)) ^
        (((estimateBusinessDays (getCalendarDays inv.depositDate cur)) : ℤ) : ℝ) := rfl

theorem calculate_grossReturn (inv : Investment) (cur : Date) (rate : ℝ) :
    (calculate inv cur rate).grossReturn =
      (calculate inv cur rate).grossValue - inv.principal := rfl

theorem calculate_iofRate (inv : Investment) (cur : Date) (rate : ℝ) :
    (calculate inv cur rate).iofRate =
      if inv.isExemptFromIR then 0
      else ((getIOFRate (getCalendarDays inv.depositDate cur) : ℚ) : ℝ) := rfl

theorem calculate_iofAmount (inv : Investment) (cur : Date) (rate : ℝ) :
    (calculate inv cur rate).iofAmount =
      if inv.isExemptFromIR then 0
      else calculateIOF (calculate inv cur rate).grossReturn
        (getCalendarDays inv.depositDate cur) := rfl

theorem calculate_irRate (inv : Investment) (cur : Date) (rate : ℝ) :
    (calculate inv cur rate).irRate =
      if inv.isExemptFromIR then 0
      else ((getIRRate (getCalendarDays inv.depositDate cur) : ℚ) : ℝ) := rfl

theorem calculate_irAmount (inv : Investment) (cur : Date) (rate : ℝ) :
    (calculate inv cur rate).irAmount =
      if inv.isExemptFromIR then 0
      else calculateIR (calculate inv cur rate).grossReturn
        (calculate inv cur rate).iofAmount (getCalendarDays inv.depositDate cur) := rfl

theorem calculate_netValue (inv : Investment) (cur : Date) (rate : ℝ) :
    (calculate inv cur rate).netValue =
      (calculate inv cur rate).grossValue - (calculate inv cur rate).iofAmount -
        (calculate inv cur rate).irAmount := rfl

theorem calculate_netReturn (inv : Investment) (cur : Date) (rate : ℝ) :
    (calculate inv cur rate).netReturn =
      (calculate inv cur rate).netValue - inv.principal := rfl

/-- Closed form of the `IR_TABLE` scan. -/
theorem getIRRate_eq (d : ℤ) :
    getIRRate d = if d ≤ 180 then 22.5 else if d ≤ 360 then 20.0
      else if d ≤ 720 then 17.5 else 15.0 := by
  by_cases h1 : d ≤ 180 <;> by_cases h2 : d ≤ 360 <;> by_cases h3 : d ≤ 720 <;>
    simp [getIRRate, IR_TABLE, bracketMatches, List.find?, h1, h2, h3]

theorem estimateBusinessDays_zero : estimateBusinessDays 0 = 0 := by
  norm_num [estimateBusinessDays]

theorem annualToDaily_zero : annualToDaily 0 = 0 := by
  simp [annualToDaily, Real.one_rpow]

/-- With a zero reference rate the gross return of any position vanishes. -/
theorem calculate_rate_zero_grossReturn (inv : Investment) (cur : Date) :
    (calculate inv cur 0).grossReturn = 0 := by
  rw [calculate_grossReturn, calculate_grossValue, annualToDaily_zero]
  norm_num [Real.one_rpow]

theorem getIOFRate_nonneg (d : ℤ) : 0 ≤ getIOFRate d := by
  unfold getIOFRate
  split_ifs with h1 h2
  · norm_num
  · norm_num
  · have hd1 : 1 ≤ d := by omega
    have hd2 : d ≤ 30 := by omega
    interval_cases d <;> decide

theorem getIOFRate_le_96 (d : ℤ) : getIOFRate d ≤ 96 := by
  unfold getIOFRate
  split_ifs with h1 h2
  · norm_num
  · norm_num
  · have hd1 : 1 ≤ d := by omega
    have hd2 : d ≤ 30 := by omega
    interval_cases d <;> decide

theorem getIRRate_nonneg (d : ℤ) : 0 ≤ getIRRate d := by
  rw [getIRRate_eq]; split_ifs <;> norm_num

theorem getIRRate_le (d : ℤ) : getIRRate d ≤ 45 / 2 := by
  rw [getIRRate_eq]; split_ifs <;> norm_num

theorem calculateIOF_nonneg (g : ℝ) (d : ℤ) : 0 ≤ calculateIOF g d := by
  unfold calculateIOF
  split_ifs with h
  · exact le_refl 0
  · push_neg at h
    have h0 : (0:ℝ) ≤ ((getIOFRate d : ℚ) : ℝ) := by exact_mod_cast getIOFRate_nonneg d
    positivity

theorem calculateIOF_le_self (g : ℝ) (d : ℤ) (hg : 0 ≤ g) : calculateIOF g d ≤ g := by
  unfold calculateIOF
  split_ifs with h
  · exact hg
  · push_neg at h
    have h96 : ((getIOFRate d : ℚ) : ℝ) ≤ 96 := by exact_mod_cast getIOFRate_le_96 d
    nlinarith

theorem calculateIR_nonneg (g iof : ℝ) (d : ℤ) : 0 ≤ calculateIR g iof d := by
  simp only [calculateIR]
  split_ifs with h
  · exact le_refl 0
  · push_neg at h
    have h0 : (0:ℝ) ≤ ((getIRRate d : ℚ) : ℝ) := by exact_mod_cast getIRRate_nonneg d
    positivity

theorem calculateIR_le_base (g iof : ℝ) (d : ℤ) (hbase : 0 ≤ g - iof) :
    calculateIR g iof d ≤ g - iof := by
  simp only [calculateIR]
  split_ifs with h
  · exact hbase
  · push_neg at h
    have h1 : ((getIRRate d : ℚ) : ℝ) ≤ 45 / 2 := by
      have h2 := (Rat.cast_le (K := ℝ)).mpr (getIRRate_le d)
      push_cast at h2
      exact h2
    nlinarith

/-! ### Claim theorems -/

/-- C5: the tax-A (IOF) rate function maps every day count ≤ 0 to 96, every
day count > 30 to 0, day 1 to 96, day 30 to 0, and is strictly decreasing
on days 1..30. -/
theorem C5_iof_table :
    (∀ d : ℤ, d ≤ 0 → getIOFRate d = 96) ∧
    (∀ d : ℤ, 30 < d → getIOFRate d = 0) ∧
    getIOFRate 1 = 96 ∧ getIOFRate 30 = 0 ∧
    (∀ d : ℤ, 1 ≤ d → d < 30 → getIOFRate (d + 1) < getIOFRate d) := by
  refine ⟨fun d hd => by simp [getIOFRate, hd], fun d hd => ?_, by decide, by decide,
    fun d h1 h2 => ?_⟩
  · rw [getIOFRate, if_neg (by omega), if_pos hd]
  · have h30 : d ≤ 29 := by omega
    interval_cases d <;> decide

/-- Witness for C5 at concrete day counts. -/
theorem C5_iof_table_witness :
    getIOFRate (-7) = 96 ∧ getIOFRate 45 = 0 ∧ getIOFRate 16 < getIOFRate 15 :=
  ⟨C5_iof_table.1 (-7) (by norm_num), C5_iof_table.2.1 45 (by norm_num),
    C5_iof_table.2.2.2.2 15 (by norm_num) (by norm_num)⟩

/-- C6: the tax-B (IR) brackets have inclusive upper bounds: 22.5% up to
180 days, 20% up to 360, 17.5% up to 720, 15% beyond. -/
theorem C6_ir_boundaries :
    getIRRate 180 = 22.5 ∧ getIRRate 181 = 20.0 ∧ getIRRate 360 = 20.0 ∧
    getIRRate 361 = 17.5 ∧ getIRRate 720 = 17.5 ∧ getIRRate 721 = 15.0 := by
  norm_num [getIRRate_eq]

/-- C2 (counterexample): the claim says the IR bracket at 365 calendar days
is 15.0%, but 365 falls under the `maxDays = 720` bracket, so the rate is
17.5%. -/
theorem C2_ir365_counterexample : getIRRate 365 ≠ 15.0 := by
  norm_num [getIRRate_eq]

/-- C2 (amended): for a non-exempt position valued exactly 365 calendar
days after deposit, the IR bracket is 17.5% (not 15%), tax A is 0 since
day > 30, and with a non-negative gross return
`netValue = grossValue − 0.175 × grossReturn`. -/
theorem C2_ir365_amended (inv : Investment) (cur : Date) (rate : ℝ)
    (h1 : inv.isExemptFromIR = false)
    (h2 : getCalendarDays inv.depositDate cur = 365)
    (h3 : 0 ≤ (calculate inv cur rate).grossReturn) :
    getIRRate 365 = 17.5 ∧
    (calculate inv cur rate).irRate = 17.5 ∧
    (calculate inv cur rate).iofAmount = 0 ∧
    (calculate inv cur rate).netValue =
      (calculate inv cur rate).grossValue -
        17.5 / 100 * (calculate inv cur rate).grossReturn := by
  have hir : getIRRate 365 = 17.5 := by norm_num [getIRRate_eq]
  have hiof365 : getIOFRate 365 = 0 := by norm_num [getIOFRate]
  have hiofAmt : (calculate inv cur rate).iofAmount = 0 := by
    rw [calculate_iofAmount, h1, h2]
    simp [calculateIOF, hiof365]
  have hirAmt : (calculate inv cur rate).irAmount =
      17.5 / 100 * (calculate inv cur rate).grossReturn := by
    rw [calculate_irAmount, h1, h2, hiofAmt]
    simp only [calculateIR, Bool.false_eq_true, if_false, sub_zero, hir]
    rcases lt_or_eq_of_le h3 with hlt | heq
    · rw [if_neg (by linarith)]
      norm_num
      ring
    · rw [← heq]
      norm_num
  refine ⟨hir, ?_, hiofAmt, ?_⟩
  · rw [calculate_irRate, h1, h2]
    simp [hir]
  · rw [calculate_netValue, hiofAmt, hirAmt]
    ring

/-- Witness for C2 (amended): the sample CDB position deposited 2023-01-01
and valued 2024-01-01 (exactly 365 calendar days) at a zero reference
rate. -/
theorem C2_ir365_witness :
    getIRRate 365 = 17.5 ∧
    (calculate cdbSample ⟨2024, 0, 1⟩ 0).irRate = 17.5 ∧
    (calculate cdbSample ⟨2024, 0, 1⟩ 0).iofAmount = 0 ∧
    (calculate cdbSample ⟨2024, 0, 1⟩ 0).netValue =
      (calculate cdbSample ⟨2024, 0, 1⟩ 0).grossValue -
        17.5 / 100 * (calculate cdbSample ⟨2024, 0, 1⟩ 0).grossReturn :=
  C2_ir365_amended cdbSample ⟨2024, 0, 1⟩ 0 rfl (by decide)
    (le_of_eq (calculate_rate_zero_grossReturn cdbSample ⟨2024, 0, 1⟩).symm)

/-- C3: valuing a position strictly before its deposit date yields zero
calendar days, zero business days, gross value equal to the principal and
zero tax amounts; the computation is total, so no exception can arise. -/
theorem C3_valuation_before_deposit (inv : Investment) (cur : Date) (rate : ℝ)
    (h : daysFromCivil cur < daysFromCivil inv.depositDate) :
    (calculate inv cur rate).daysInvested = 0 ∧
    (calculate inv cur rate).businessDays = 0 ∧
    (calculate inv cur rate).grossValue = inv.principal ∧
    (calculate inv cur rate).iofAmount = 0 ∧
    (calculate inv cur rate).irAmount = 0 := by
  have hcd : getCalendarDays inv.depositDate cur = 0 := by
    unfold getCalendarDays
    omega
  have hgv : (calculate inv cur rate).grossValue = inv.principal := by
    rw [calculate_grossValue, hcd, estimateBusinessDays_zero]
    norm_num
  have hgr : (calculate inv cur rate).grossReturn = 0 := by
    rw [calculate_grossReturn, hgv]; ring
  have hiof : (calculate inv cur rate).iofAmount = 0 := by
    rw [calculate_iofAmount, hgr]
    split_ifs with hex
    · rfl
    · simp [calculateIOF]
  have hir : (calculate inv cur rate).irAmount = 0 := by
    rw [calculate_irAmount, hgr, hiof]
    split_ifs with hex
    · rfl
    · simp [calculateIR]
  exact ⟨by rw [calculate_daysInvested, hcd],
    by rw [calculate_businessDays, hcd, estimateBusinessDays_zero], hgv, hiof, hir⟩

/-- Witness for C3: the sample CDB position (deposited 2023-01-01) valued
on 2022-06-15, before the deposit. -/
theorem C3_valuation_before_deposit_witness :
    (calculate cdbSample ⟨2022, 5, 15⟩ 14.9).daysInvested = 0 ∧
    (calculate cdbSample ⟨2022, 5, 15⟩ 14.9).businessDays = 0 ∧
    (calculate cdbSample ⟨2022, 5, 15⟩ 14.9).grossValue = cdbSample.principal ∧
    (calculate cdbSample ⟨2022, 5, 15⟩ 14.9).iofAmount = 0 ∧
    (calculate cdbSample ⟨2022, 5, 15⟩ 14.9).irAmount = 0 :=
  C3_valuation_before_deposit cdbSample ⟨2022, 5, 15⟩ 14.9 (by decide)

/-- C7: an exempt position reports both tax amounts and both tax rates as
exactly 0, for every valuation date, reference rate and day count. -/
theorem C7_exemption (inv : Investment) (cur : Date) (rate : ℝ)
    (h : inv.isExemptFromIR = true) :
    (calculate inv cur rate).iofAmount = 0 ∧ (calculate inv cur rate).irAmount = 0 ∧
    (calculate inv cur rate).iofRate = 0 ∧ (calculate inv cur rate).irRate = 0 := by
  refine ⟨?_, ?_, ?_, ?_⟩
  · rw [calculate_iofAmount, h]; simp
  · rw [calculate_irAmount, h]; simp
  · rw [calculate_iofRate, h]; simp
  · rw [calculate_irRate, h]; simp

/-- Witness for C7: the sample exempt LCI position. -/
theorem C7_exemption_witness :
    (calculate lciSample sampleDate 14.9).iofAmount = 0 ∧
    (calculate lciSample sampleDate 14.9).irAmount = 0 ∧
    (calculate lciSample sampleDate 14.9).iofRate = 0 ∧
    (calculate lciSample sampleDate 14.9).irRate = 0 :=
  C7_exemption lciSample sampleDate 14.9 rfl

/-- C8: for every annual rate in (−50, 100) percent the daily and annual
conversions with exponent 252 are exact mutual inverses over the reals
(the source's floating-point arithmetic is modelled exactly; the claim's
1e-9 tolerance is subsumed by exact equality). -/
theorem C8_roundtrip (r : ℝ) (h1 : -50 < r) (h2 : r < 100) :
    dailyToAnnual (annualToDaily r) = r := by
  have hx : (0:ℝ) ≤ 1 + r / 100 := by linarith
  simp only [dailyToAnnual, annualToDaily, BUSINESS_DAYS_PER_YEAR]
  have harg : 1 + ((1 + r / 100) ^ ((1:ℝ) / ((252:ℕ) : ℝ)) - 1) * 100 / 100 =
      (1 + r / 100) ^ ((1:ℝ) / ((252:ℕ) : ℝ)) := by ring
  rw [harg, ← Real.rpow_mul hx]
  norm_num

/-- Witness for C8 at r = 25. -/
theorem C8_roundtrip_witness : dailyToAnnual (annualToDaily 25) = 25 :=
  C8_roundtrip 25 (by norm_num) (by norm_num)

theorem projectState_length (I : List Investment) (E : List Expense)
    (rate ms : ℝ) (start : Date) (mr : ℝ) (n : ℕ) :
    ((projectState I E rate ms start mr n).1).length = n := by
  induction n with
  | zero => rfl
  | succ k ih => simp [projectState, projectStep, ih]

theorem projectState_succ_fst (I : List Investment) (E : List Expense)
    (rate ms : ℝ) (start : Date) (mr : ℝ) (n : ℕ) :
    (projectState I E rate ms start mr (n + 1)).1 =
      (projectState I E rate ms start mr n).1 ++
        [((projectStep I E rate ms start mr (projectState I E rate ms start mr n) n).1).getD
          n default] := by
  have hlen := projectState_length I E rate ms start mr n
  show (projectStep I E rate ms start mr (projectState I E rate ms start mr n) n).1 = _
  simp only [projectStep]
  rw [List.getD_append_right _ _ _ _ (by omega), hlen]
  simp

/-- Elements already produced are unchanged by later loop iterations. -/
theorem projectState_getD_stable (I : List Investment) (E : List Expense)
    (rate ms : ℝ) (start : Date) (mr : ℝ) (n i : ℕ) (h : i < n) :
    ((projectState I E rate ms start mr n).1).getD i default =
      ((projectState I E rate ms start mr (i + 1)).1).getD i default := by
  induction n with
  | zero => omega
  | succ k ih =>
    rcases Nat.lt_or_ge i k with hik | hik
    · rw [← ih hik, projectState_succ_fst,
        List.getD_append _ _ _ _ (by rw [projectState_length]; omega)]
    · have hk : i = k := by omega
      subst hk
      rfl

/-- The `monthlyReturn` stored at a positive month index `i` is the
positions-only total at month `i`, minus the `totalInvestments` field of
the previous point, plus one month of return on the contribution, clamped
at zero. -/
theorem projectState_monthlyReturn (I : List Investment) (E : List Expense)
    (rate ms : ℝ) (start : Date) (mr : ℝ) (i : ℕ) (hi : 0 < i) :
    (((projectState I E rate ms start mr (i + 1)).1).getD i default).monthlyReturn =
      max 0 (positionsTotal I rate start i -
        (((projectState I E rate ms start mr i).1).getD (i - 1) default).totalInvestments +
        ms * mr) := by
  have hlen := projectState_length I E rate ms start mr i
  show (((projectStep I E rate ms start mr (projectState I E rate ms start mr i) i).1).getD
    i default).monthlyReturn = _
  simp only [projectStep]
  rw [List.getD_append_right _ _ _ _ (by omega), hlen]
  simp [hi]

/-- Every produced point stores the same value in `totalInvestments` and
`netWorth`. -/
theorem projectState_totalInvestments_eq_netWorth (I : List Investment) (E : List Expense)
    (rate ms : ℝ) (start : Date) (mr : ℝ) (n : ℕ) :
    ∀ r ∈ (projectState I E rate ms start mr n).1, r.totalInvestments = r.netWorth := by
  induction n with
  | zero => intro r hr; simp [projectState] at hr
  | succ k ih =>
    intro r hr
    rw [projectState_succ_fst] at hr
    rcases List.mem_append.mp hr with h | h
    · exact ih r h
    · have hr' : r = ((projectStep I E rate ms start mr
          (projectState I E rate ms start mr k) k).1).getD k default := by
        simpa using h
      subst hr'
      have hlen := projectState_length I E rate ms start mr k
      simp only [projectStep]
      rw [List.getD_append_right _ _ _ _ (by omega), hlen]
      simp

/-- C4: the monthly charge of a single obligation (its contribution to
`getMonthlyExpenses`) is 0 when paid; 0 when a deferred payment date is set
and the target date strictly precedes it; otherwise it is the monthly
amount exactly when `(targetYear − startYear) × 12 + (targetMonth −
startMonth)` (day-of-month ignored) lies in `[0, installments)`, and 0
otherwise. -/
theorem C4_monthly_charge (e : Expense) (d : Date) :
    getMonthlyExpenses [e] d =
      if e.isPaid then 0
      else if (match e.paymentDate with
               | some p => dateLt d p
               | none => false) then 0
      else if 0 ≤ (d.year - e.startDate.year) * 12 + (d.month - e.startDate.month) ∧
              (d.year - e.startDate.year) * 12 + (d.month - e.startDate.month) <
                e.installments
           then e.monthlyAmount else 0 := by
  simp only [getMonthlyExpenses, List.foldl, getMonthsDifference]
  rcases hp : e.paymentDate with _ | p <;> split_ifs <;> simp_all

/-- C9: every point of every projection stores the same value in
`totalInvestments` and `netWorth` (both are the accumulated-wealth figure);
the point carries no positions-only total. -/
theorem C9_totalInvestments_eq_netWorth (I : List Investment) (E : List Expense)
    (months : ℕ) (rate ms : ℝ) (start : Date) (r : ProjectionResult)
    (hr : r ∈ projectWealth I E months rate ms start) :
    r.totalInvestments = r.netWorth := by
  simp only [projectWealth] at hr
  exact projectState_totalInvestments_eq_netWorth I E rate ms start
    (annualToMonthly rate / 100) (months + 1) r hr

/-- Witness for C9: the single point of an empty projection. -/
theorem C9_totalInvestments_eq_netWorth_witness :
    ((projectWealth [] [] 0 0 0 sampleDate).getD 0 default).totalInvestments =
      ((projectWealth [] [] 0 0 0 sampleDate).getD 0 default).netWorth :=
  C9_totalInvestments_eq_netWorth [] [] 0 0 0 sampleDate _ (by
    have hlen : (projectWealth ([] : List Investment) [] 0 0 0 sampleDate).length = 1 := by
      simp only [projectWealth]
      rw [projectState_length]
    rw [List.getD_eq_getElem _ _ (by omega)]
    exact List.getElem_mem _)

/-- C10: for a non-exempt position with non-negative gross return, the two
taxes together take a non-negative amount no larger than the gross return,
so the net value is at least the principal and the net return is
non-negative. -/
theorem C10_tax_bounds (inv : Investment) (cur : Date) (rate : ℝ)
    (h1 : inv.isExemptFromIR = false)
    (h2 : 0 ≤ (calculate inv cur rate).grossReturn) :
    0 ≤ (calculate inv cur rate).iofAmount + (calculate inv cur rate).irAmount ∧
    (calculate inv cur rate).iofAmount + (calculate inv cur rate).irAmount ≤
      (calculate inv cur rate).grossReturn ∧
    inv.principal ≤ (calculate inv cur rate).netValue ∧
    0 ≤ (calculate inv cur rate).netReturn := by
  have hiofEq : (calculate inv cur rate).iofAmount =
      calculateIOF (calculate inv cur rate).grossReturn
        (getCalendarDays inv.depositDate cur) := by
    rw [calculate_iofAmount, h1]; simp
  have hirEq : (calculate inv cur rate).irAmount =
      calculateIR (calculate inv cur rate).grossReturn
        (calculate inv cur rate).iofAmount (getCalendarDays inv.depositDate cur) := by
    rw [calculate_irAmount, h1]; simp
  have hA0 : 0 ≤ (calculate inv cur rate).iofAmount := by
    rw [hiofEq]; exact calculateIOF_nonneg _ _
  have hA1 : (calculate inv cur rate).iofAmount ≤ (calculate inv cur rate).grossReturn := by
    rw [hiofEq]; exact calculateIOF_le_self _ _ h2
  have hB0 : 0 ≤ (calculate inv cur rate).irAmount := by
    rw [hirEq]; exact calculateIR_nonneg _ _ _
  have hB1 : (calculate inv cur rate).irAmount ≤
      (calculate inv cur rate).grossReturn - (calculate inv cur rate).iofAmount := by
    rw [hirEq]; exact calculateIR_le_base _ _ _ (by linarith)
  have hgv := calculate_grossReturn inv cur rate
  have hnv : inv.principal ≤ (calculate inv cur rate).netValue := by
    rw [calculate_netValue]; linarith
  refine ⟨by linarith, by linarith, hnv, ?_⟩
  rw [calculate_netReturn]; linarith

/-- Witness for C10: the sample non-exempt CDB position at a zero
reference rate (gross return exactly 0). -/
theorem C10_tax_bounds_witness :
    0 ≤ (calculate cdbSample sampleDate 0).iofAmount +
        (calculate cdbSample sampleDate 0).irAmount ∧
    (calculate cdbSample sampleDate 0).iofAmount +
        (calculate cdbSample sampleDate 0).irAmount ≤
      (calculate cdbSample sampleDate 0).grossReturn ∧
    cdbSample.principal ≤ (calculate cdbSample sampleDate 0).netValue ∧
    0 ≤ (calculate cdbSample sampleDate 0).netReturn :=
  C10_tax_bounds cdbSample sampleDate 0 rfl
    (le_of_eq (calculate_rate_zero_grossReturn cdbSample sampleDate).symm)

/-- C1 (amended): the point at month index 0 has `monthlyReturn = 0`, and
for every index `0 < i ≤ months` the point at index `i` has
`monthlyReturn = max(0, P_i − netWorth_{i−1} + monthlyContribution ×
monthlyRate)`, where `P_i` is the positions-only total at month `i` (the
sum of the positions' net values, excluding compounded contributions and
accumulated expenses) — not `netWorth_i` as the claim stated. -/
theorem C1_monthlyReturn_amended (I : List Investment) (E : List Expense)
    (months : ℕ) (rate ms : ℝ) (start : Date) (i : ℕ) (hi : i ≤ months) :
    ((projectWealth I E months rate ms start).getD i default).monthlyReturn =
      if i = 0 then 0 else
        max 0 (positionsTotal I rate start i -
          ((projectWealth I E months rate ms start).getD (i - 1) default).netWorth +
          ms * (annualToMonthly rate / 100)) := by
  simp only [projectWealth]
  set mr := annualToMonthly rate / 100 with hmr
  rcases Nat.eq_zero_or_pos i with h0 | hpos
  · subst h0
    simp only [if_pos rfl]
    rw [projectState_getD_stable I E rate ms start mr (months + 1) 0 (by omega)]
    show (((projectStep I E rate ms start mr
      (projectState I E rate ms start mr 0) 0).1).getD 0 default).monthlyReturn = 0
    simp [projectStep, projectState]
  · rw [if_neg (by omega)]
    rw [projectState_getD_stable I E rate ms start mr (months + 1) i (by omega)]
    rw [projectState_monthlyReturn I E rate ms start mr i hpos]
    have hstable : ((projectState I E rate ms start mr (months + 1)).1).getD (i - 1) default =
        ((projectState I E rate ms start mr i).1).getD (i - 1) default := by
      rw [projectState_getD_stable I E rate ms start mr (months + 1) (i - 1) (by omega),
        projectState_getD_stable I E rate ms start mr i (i - 1) (by omega)]
    rw [hstable]
    have hmem : ((projectState I E rate ms start mr i).1).getD (i - 1) default ∈
        (projectState I E rate ms start mr i).1 := by
      have hlen := projectState_length I E rate ms start mr i
      rw [List.getD_eq_getElem _ _ (by omega)]
      exact List.getElem_mem _
    rw [projectState_totalInvestments_eq_netWorth I E rate ms start mr i _ hmem]

/-- C1 (counterexample): with no positions, no obligations, a zero
reference rate and a monthly contribution of 100, the point at index 1 has
`netWorth = 100`, `netWorth₀ = 0` and `monthlyReturn = 0`, while the
claim's formula `max(0, netWorth₁ − netWorth₀ + 100 × monthlyRate)`
evaluates to 100. -/
theorem C1_monthlyReturn_counterexample :
    ¬ (((projectWealth [] [] 1 0 100 sampleDate).getD 1 default).monthlyReturn =
        max 0 (((projectWealth [] [] 1 0 100 sampleDate).getD 1 default).netWorth -
          ((projectWealth [] [] 1 0 100 sampleDate).getD 0 default).netWorth +
          100 * (annualToMonthly 0 / 100))) := by
  have hm : annualToMonthly 0 = 0 := by simp [annualToMonthly, Real.one_rpow]
  simp only [projectWealth, hm, zero_div]
  simp [projectState, projectStep, positionsTotal, getMonthlyExpenses, List.getD]

/-- Witness for C1 (amended) at the counterexample's inputs, month index 1. -/
theorem C1_monthlyReturn_witness :
    ((projectWealth [] [] 1 0 100 sampleDate).getD 1 default).monthlyReturn =
      if 1 = 0 then 0 else
        max 0 (positionsTotal [] 0 sampleDate 1 -
          ((projectWealth [] [] 1 0 100 sampleDate).getD 0 default).netWorth +
          100 * (annualToMonthly 0 / 100)) :=
  C1_monthlyReturn_amended [] [] 1 0 100 sampleDate 1 (by norm_num)
